import Mathlib

/-!
Shallow embedding of the simulation core of `SpaceWaves.py` (class
`SpacewavesGame`).  Tkinter canvas items are modelled by their data:
enemies by their bounding boxes, score popups by their anchor position and
countdown.  Python numbers (ints and floats produced by `time.time()*1000`
and the scaling arithmetic) are modelled as rationals; Python `//` (floor
division) is `pyFloorDiv` and Python `int(...)` (truncation toward zero) is
`pyInt`.  Rendering-only calls (`canvas.create_text`, fonts, colours,
`update_score`, `reposition_ui`, `draw_game_over_screen`) have no state in
the model; the `<Return>`-key bind/unbind performed by `game_over` /
`bind_controls` is modelled by the boolean field `return_bound`.
-/

namespace SpaceWaves

/-- Floor of a rational as an integer: since `q.den > 0`,
`q.num.fdiv q.den` is exactly `⌊q⌋`. -/
def ratFloor (q : ℚ) : ℤ :=
  q.num.fdiv q.den

/-- Python `int(...)` on a number: truncation toward zero. -/
def pyInt (q : ℚ) : ℚ :=
  if 0 ≤ q then (ratFloor q : ℚ) else (-(ratFloor (-q)) : ℚ)

/-- Python floor division `a // b` on numbers. -/
def pyFloorDiv (a b : ℚ) : ℚ :=
  (ratFloor (a / b) : ℚ)

/-- An axis-aligned bounding box `(x1, y1, x2, y2)`, as returned by
`canvas.coords` / `canvas.bbox` for a rectangle. -/
structure Box where
  x1 : ℚ
  y1 : ℚ
  x2 : ℚ
  y2 : ℚ
deriving DecidableEq

/-- A score popup: the anchor position of the `+10` text and the remaining
countdown (stored as `(popup_id, 30)` in `self.score_popups`; the canvas
position of the text item is part of the model). -/
structure Popup where
  x : ℚ
  y : ℚ
  countdown : ℤ
deriving DecidableEq

/-- A key whose release `stop_player_velocity` reacts to. -/
inductive MoveKey where
  | left
  | right
deriving DecidableEq

/-- The mutable state of a `SpacewavesGame` instance (simulation core
fields only). -/
structure GameState where
  canvas_width : ℚ
  canvas_height : ℚ
  scale_factor : ℚ
  current_player_size : ℚ
  high_score : ℚ
  game_paused : Bool
  game_running : Bool
  score : ℚ
  enemies : List Box
  enemy_speed : ℚ
  last_spawn_time : ℚ
  score_popups : List Popup
  player_x : ℚ
  player_y : ℚ
  player_vel_x : ℚ
  return_bound : Bool
deriving DecidableEq

/-- `init_game_objects`: re-reads the widget size (`winfo_w`, `winfo_h` are
what `winfo_width()` / `winfo_height()` report), guards against a height of
exactly `1` (a not-yet-drawn widget), and resets every per-session field.
`high_score` and `game_paused` are untouched.  `now` is `time.time()*1000`.
`bind_controls` unbinds `<Return>`, hence `return_bound := false`. -/
def init_game_objects (s : GameState) (winfo_w winfo_h now : ℚ) : GameState :=
  let h := if winfo_h = 1 then 700 else winfo_h
  let sf := h / 700
  { s with
    canvas_width := winfo_w
    canvas_height := h
    scale_factor := sf
    current_player_size := pyInt (30 * sf)
    game_running := true
    score := 0
    enemies := []
    enemy_speed := 3
    last_spawn_time := now
    score_popups := []
    player_x := pyFloorDiv winfo_w 2
    player_y := h - 50 * sf
    player_vel_x := 0
    return_bound := false }

/-- `reposition_player`: recomputes the player size and y-offset from the
current scale factor and clamps `player_x` into the new bounds (first the
upper, then the lower bound, as in the source). -/
def reposition_player (s : GameState) : GameState :=
  let size := pyInt (30 * s.scale_factor)
  let py := s.canvas_height - 50 * s.scale_factor
  let min_x := pyFloorDiv size 2
  let max_x := s.canvas_width - pyFloorDiv size 2
  let x1 := if s.player_x > max_x then max_x else s.player_x
  let x2 := if x1 < min_x then min_x else x1
  { s with current_player_size := size, player_y := py, player_x := x2 }

/-- `on_resize`: stores the new canvas dimensions, recomputes the scale
factor from the height, and repositions the player.  (`reposition_ui` is
rendering only.) -/
def on_resize (s : GameState) (w h : ℚ) : GameState :=
  reposition_player
    { s with canvas_width := w, canvas_height := h, scale_factor := h / 700 }

/-- `toggle_pause`: a no-op unless the game is running; otherwise flips
`game_paused`.  (The pause-text drawing and the `after` rescheduling are
rendering/scheduler concerns.) -/
def toggle_pause (s : GameState) : GameState :=
  if !s.game_running then s else { s with game_paused := !s.game_paused }

/-- `set_player_velocity`. -/
def set_player_velocity (s : GameState) (speed : ℚ) : GameState :=
  { s with player_vel_x := speed }

/-- `stop_player_velocity`: zeroes the velocity only when the released key
matches the current direction of motion. -/
def stop_player_velocity (s : GameState) (key : MoveKey) : GameState :=
  match key with
  | MoveKey.left => if s.player_vel_x < 0 then { s with player_vel_x := 0 } else s
  | MoveKey.right => if s.player_vel_x > 0 then { s with player_vel_x := 0 } else s

/-- `move_player`: advances `player_x` by the velocity with the boundary
checks of the source (strictly-inside commit; `<= min_x` clamps to
`min_x + 1`; `>= max_x` clamps to `max_x - 1`; both clamps zero the
velocity). -/
def move_player (s : GameState) : GameState :=
  if s.player_vel_x ≠ 0 then
    let new_x := s.player_x + s.player_vel_x
    let size := s.current_player_size
    let min_x := pyFloorDiv size 2
    let max_x := s.canvas_width - pyFloorDiv size 2
    if min_x < new_x ∧ new_x < max_x then
      { s with player_x := new_x }
    else if new_x ≤ min_x then
      { s with player_x := min_x + 1, player_vel_x := 0 }
    else if new_x ≥ max_x then
      { s with player_x := max_x - 1, player_vel_x := 0 }
    else s
  else s

/-- The spawn threshold `ENEMY_SPAWN_INTERVAL / (1 + score / 500)` from
`spawn_enemies`. -/
def spawnInterval (score : ℚ) : ℚ :=
  1500 / (1 + score / 500)

/-- `spawn_enemies`: always recomputes `enemy_speed`; when
`now - last_spawn_time` strictly exceeds the threshold, appends one block
per chosen slot (the random draws `num_blocks = slots.length` and
`occupied_slots = slots` are parameters of the model) and records the spawn
time. -/
def spawn_enemies (s : GameState) (now : ℚ) (slots : List ℤ) : GameState :=
  let speed := 3 + pyFloorDiv s.score 100
  let scaled_enemy_height := pyInt (30 * s.scale_factor)
  if now - s.last_spawn_time > spawnInterval s.score then
    let block_width := pyFloorDiv s.canvas_width 10
    let newBlocks := slots.map fun (slot : ℤ) =>
      Box.mk ((slot : ℚ) * block_width) 0 (((slot : ℚ) + 1) * block_width)
        scaled_enemy_height
    { s with
      enemy_speed := speed
      enemies := s.enemies ++ newBlocks
      last_spawn_time := now }
  else
    { s with enemy_speed := speed }

/-- The loop body of `move_enemies` over the enemy list: each box is moved
down by `speed`; a moved box whose bottom edge exceeds `h` is retired,
contributing `10` points and one popup at
`((x1 + x2) // 2, y2 - 15)` with countdown `30`; the rest are kept in
order.  Returns `(surviving boxes, points gained, popups emitted)`. -/
def moveEnemiesAux (speed h : ℚ) : List Box → List Box × ℚ × List Popup
  | [] => ([], 0, [])
  | b :: rest =>
    let b' : Box := { b with y1 := b.y1 + speed, y2 := b.y2 + speed }
    let r := moveEnemiesAux speed h rest
    if b'.y2 > h then
      (r.1, r.2.1 + 10, Popup.mk (pyFloorDiv (b'.x1 + b'.x2) 2) (b'.y2 - 15) 30 :: r.2.2)
    else
      (b' :: r.1, r.2.1, r.2.2)

/-- `move_enemies`: moves every enemy down by `enemy_speed`, retires the
ones whose bottom edge passed the canvas height (awarding `+10` and a
popup each), keeps the rest. -/
def move_enemies (s : GameState) : GameState :=
  let r := moveEnemiesAux s.enemy_speed s.canvas_height s.enemies
  { s with
    enemies := r.1
    score := s.score + r.2.1
    score_popups := s.score_popups ++ r.2.2 }

/-- The loop body of `update_score_popups` over the popup list: every entry
is moved up by `1` and its countdown decremented, and the entries whose
countdown (read before the decrement) was `≤ 0` are deleted. -/
def popupStep : List Popup → List Popup
  | [] => []
  | p :: rest =>
    if p.countdown ≤ 0 then popupStep rest
    else { p with y := p.y - 1, countdown := p.countdown - 1 } :: popupStep rest

/-- `update_score_popups`. -/
def update_score_popups (s : GameState) : GameState :=
  { s with score_popups := popupStep s.score_popups }

/-- The core of `check_collisions`: the strict AABB overlap test between
the player box and each enemy box, returning at the first hit. -/
def check_collisions_core (p : Box) : List Box → Bool
  | [] => false
  | e :: rest =>
    let x_overlap := decide (max p.x1 e.x1 < min p.x2 e.x2)
    let y_overlap := decide (max p.y1 e.y1 < min p.y2 e.y2)
    if x_overlap && y_overlap then true else check_collisions_core p rest

/-- Models `canvas.bbox(self.player_shape)` as the tight bounding box of
the triangle vertices produced by `get_player_coords`. -/
def playerBbox (s : GameState) : Box :=
  Box.mk (s.player_x - pyFloorDiv s.current_player_size 2)
    (s.player_y - s.current_player_size)
    (s.player_x + pyFloorDiv s.current_player_size 2)
    (s.player_y + pyFloorDiv s.current_player_size 2)

/-- `check_collisions` applied to the game state (the boolean result; the
`game_running := false` write is performed at the call site in the model of
`game_loop`). -/
def checkCollisionsState (s : GameState) : Bool :=
  check_collisions_core (playerBbox s) s.enemies

/-- `game_over`: raises the high score when beaten, clears all popups, and
binds `<Return>` (modelled by `return_bound := true`); `unbind_controls`
and the game-over screen are input/rendering concerns. -/
def game_over (s : GameState) : GameState :=
  { s with
    high_score := if s.score > s.high_score then s.score else s.high_score
    score_popups := []
    return_bound := true }

/-- `reset_game`: clears the pause flag and re-initializes; the widget size
read back by `init_game_objects` is the current canvas size.  The trailing
`game_loop()` call is the scheduler requesting ticks and is modelled by
subsequent `Step.tick` transitions. -/
def reset_game (s : GameState) (now : ℚ) : GameState :=
  init_game_objects { s with game_paused := false } s.canvas_width s.canvas_height now

/-- The `<Return>` key event: it reaches `reset_game` only while the
binding installed by `game_over` is in place. -/
def press_return (s : GameState) (now : ℚ) : GameState :=
  if s.return_bound then reset_game s now else s

/-- One `game_loop` invocation: a no-op unless running and unpaused;
otherwise the fixed pipeline, ending in `game_over` when `check_collisions`
reports a hit (which also sets `game_running := false`). -/
def game_loop (s : GameState) (now : ℚ) (slots : List ℤ) : GameState :=
  if !s.game_running || s.game_paused then s
  else
    let s1 := move_player s
    let s2 := spawn_enemies s1 now slots
    let s3 := move_enemies s2
    let s4 := update_score_popups s3
    if checkCollisionsState s4 then game_over { s4 with game_running := false }
    else s4

/-- The state of the object right after the field assignments of
`__init__`, before the `init_game_objects` call there. -/
def initialBase : GameState :=
  { canvas_width := 600
    canvas_height := 700
    scale_factor := 1
    current_player_size := 30
    high_score := 0
    game_paused := true
    game_running := false
    score := 0
    enemies := []
    enemy_speed := 3
    last_spawn_time := 0
    score_popups := []
    player_x := 300
    player_y := 650
    player_vel_x := 0
    return_bound := false }

/-- One externally triggered transition of the session: a scheduler tick
(with the time stamp and the random draws of that tick), a key event, or a
resize event.  The side conditions on `slots` are the ranges of
`random.randint(2, 5)` and `random.sample(range(10), k=num_blocks)`. -/
inductive Step : GameState → GameState → Prop where
  | tick (s : GameState) (now : ℚ) (slots : List ℤ)
      (h2 : 2 ≤ slots.length) (h5 : slots.length ≤ 5) (hnd : slots.Nodup)
      (hmem : ∀ i ∈ slots, 0 ≤ i ∧ i < 10) :
      Step s (game_loop s now slots)
  | toggle (s : GameState) : Step s (toggle_pause s)
  | resize (s : GameState) (w h : ℚ) : Step s (on_resize s w h)
  | setVel (s : GameState) (v : ℚ) (hv : v = -15 ∨ v = 15) :
      Step s (set_player_velocity s v)
  | stopVel (s : GameState) (k : MoveKey) : Step s (stop_player_velocity s k)
  | pressReturn (s : GameState) (now : ℚ) : Step s (press_return s now)

/-- The states a session can be in: the `__init__` call (whose
`init_game_objects` reads back whatever widget size the host reports)
followed by any sequence of transitions. -/
inductive Reachable : GameState → Prop where
  | init (w h now : ℚ) : Reachable (init_game_objects initialBase w h now)
  | step {s t : GameState} : Reachable s → Step s t → Reachable t

end SpaceWaves

namespace SpaceWaves

/-! ## Helper lemmas -/

/-- Since `q.den > 0`, the model's floor agrees with the mathematical floor. -/
theorem ratFloor_eq_floor (q : ℚ) : ratFloor q = ⌊q⌋ := by
  rw [ratFloor, Int.fdiv_eq_ediv _ (by positivity), Rat.floor_def]

theorem toggle_pause_return_bound (s : GameState) :
    (toggle_pause s).return_bound = s.return_bound := by
  simp only [toggle_pause] ; split <;> rfl

theorem toggle_pause_game_running (s : GameState) :
    (toggle_pause s).game_running = s.game_running := by
  simp only [toggle_pause] ; split <;> rfl

theorem toggle_pause_high_score (s : GameState) :
    (toggle_pause s).high_score = s.high_score := by
  simp only [toggle_pause] ; split <;> rfl

theorem move_player_return_bound (s : GameState) :
    (move_player s).return_bound = s.return_bound := by
  simp only [move_player]
  repeat' split
  all_goals rfl

theorem move_player_game_running (s : GameState) :
    (move_player s).game_running = s.game_running := by
  simp only [move_player]
  repeat' split
  all_goals rfl

theorem move_player_high_score (s : GameState) :
    (move_player s).high_score = s.high_score := by
  simp only [move_player]
  repeat' split
  all_goals rfl

theorem spawn_enemies_return_bound (s : GameState) (now : ℚ) (slots : List ℤ) :
    (spawn_enemies s now slots).return_bound = s.return_bound := by
  simp only [spawn_enemies] ; split <;> rfl

theorem spawn_enemies_game_running (s : GameState) (now : ℚ) (slots : List ℤ) :
    (spawn_enemies s now slots).game_running = s.game_running := by
  simp only [spawn_enemies] ; split <;> rfl

theorem spawn_enemies_high_score (s : GameState) (now : ℚ) (slots : List ℤ) :
    (spawn_enemies s now slots).high_score = s.high_score := by
  simp only [spawn_enemies] ; split <;> rfl

theorem stop_player_velocity_return_bound (s : GameState) (k : MoveKey) :
    (stop_player_velocity s k).return_bound = s.return_bound := by
  cases k <;> (simp only [stop_player_velocity] ; split <;> rfl)

theorem stop_player_velocity_game_running (s : GameState) (k : MoveKey) :
    (stop_player_velocity s k).game_running = s.game_running := by
  cases k <;> (simp only [stop_player_velocity] ; split <;> rfl)

theorem stop_player_velocity_high_score (s : GameState) (k : MoveKey) :
    (stop_player_velocity s k).high_score = s.high_score := by
  cases k <;> (simp only [stop_player_velocity] ; split <;> rfl)

theorem move_enemies_return_bound (s : GameState) :
    (move_enemies s).return_bound = s.return_bound := rfl

theorem move_enemies_game_running (s : GameState) :
    (move_enemies s).game_running = s.game_running := rfl

theorem move_enemies_high_score (s : GameState) :
    (move_enemies s).high_score = s.high_score := rfl

theorem update_score_popups_return_bound (s : GameState) :
    (update_score_popups s).return_bound = s.return_bound := rfl

theorem update_score_popups_game_running (s : GameState) :
    (update_score_popups s).game_running = s.game_running := rfl

theorem update_score_popups_high_score (s : GameState) :
    (update_score_popups s).high_score = s.high_score := rfl

/-- A `game_loop` tick preserves the binding discipline: if the `<Return>`
binding implies game-over before the tick, it does after. -/
theorem game_loop_rb_inv (s : GameState) (now : ℚ) (slots : List ℤ)
    (h : s.return_bound = true → s.game_running = false) :
    (game_loop s now slots).return_bound = true →
      (game_loop s now slots).game_running = false := by
  simp only [game_loop]
  split
  · exact h
  · next hguard =>
    split
    · intro _ ; rfl
    · intro hrb
      rw [update_score_popups_return_bound, move_enemies_return_bound,
        spawn_enemies_return_bound, move_player_return_bound] at hrb
      have hrun := h hrb
      rw [Bool.not_eq_true, Bool.or_eq_false_iff] at hguard
      rw [hrun] at hguard
      simp at hguard

/-- In every reachable session state, the `<Return>` binding installed by
`game_over` is only present while the game is over. -/
theorem reachable_rb {s : GameState} (h : Reachable s) :
    s.return_bound = true → s.game_running = false := by
  induction h with
  | init w hh now =>
    intro hrb
    exact absurd hrb (by simp [init_game_objects])
  | step hs hstep ih =>
    cases hstep with
    | tick now slots h2 h5 hnd hmem => exact game_loop_rb_inv _ now slots ih
    | toggle =>
      rw [toggle_pause_return_bound, toggle_pause_game_running]
      exact ih
    | resize w h => exact ih
    | setVel v hv => exact ih
    | stopVel k =>
      rw [stop_player_velocity_return_bound, stop_player_velocity_game_running]
      exact ih
    | pressReturn now =>
      simp only [press_return]
      split
      · intro hrb
        exact absurd hrb (by simp [reset_game, init_game_objects])
      · exact ih

/-- Branch behaviour of `move_player` for a nonzero velocity. -/
theorem move_player_cases (s : GameState) (hv : s.player_vel_x ≠ 0) :
    ((pyFloorDiv s.current_player_size 2 < s.player_x + s.player_vel_x ∧
      s.player_x + s.player_vel_x < s.canvas_width - pyFloorDiv s.current_player_size 2) →
        move_player s = { s with player_x := s.player_x + s.player_vel_x }) ∧
    (s.player_x + s.player_vel_x ≤ pyFloorDiv s.current_player_size 2 →
        move_player s = { s with player_x := pyFloorDiv s.current_player_size 2 + 1,
                                 player_vel_x := 0 }) ∧
    ((pyFloorDiv s.current_player_size 2 < s.player_x + s.player_vel_x ∧
      s.canvas_width - pyFloorDiv s.current_player_size 2 ≤ s.player_x + s.player_vel_x) →
        move_player s = { s with
          player_x := s.canvas_width - pyFloorDiv s.current_player_size 2 - 1,
          player_vel_x := 0 }) := by
  refine ⟨fun h => ?_, fun h => ?_, fun h => ?_⟩ <;> simp only [move_player]
  · rw [if_pos hv, if_pos h]
  · rw [if_pos hv, if_neg (fun hcon => absurd hcon.1 (not_lt.2 h)), if_pos h]
  · rw [if_pos hv, if_neg (fun hcon => absurd hcon.2 (not_lt.2 h.2)),
      if_neg (not_le.2 h.1), if_pos h.2]

/-- The collision scan is the existence of a strictly overlapping live box. -/
theorem check_core_iff (p : Box) (es : List Box) :
    check_collisions_core p es = true ↔
      ∃ e ∈ es, max p.x1 e.x1 < min p.x2 e.x2 ∧ max p.y1 e.y1 < min p.y2 e.y2 := by
  induction es with
  | nil => simp [check_collisions_core]
  | cons e rest ih =>
    simp only [check_collisions_core]
    by_cases h : max p.x1 e.x1 < min p.x2 e.x2 ∧ max p.y1 e.y1 < min p.y2 e.y2
    · rw [if_pos (by simp only [Bool.and_eq_true, decide_eq_true_eq] ; exact h)]
      exact iff_of_true rfl ⟨e, List.mem_cons_self e rest, h⟩
    · rw [if_neg (by simp only [Bool.and_eq_true, decide_eq_true_eq] ; exact h)]
      rw [ih]
      constructor
      · rintro ⟨a, ha, hov⟩
        exact ⟨a, List.mem_cons_of_mem e ha, hov⟩
      · rintro ⟨a, ha, hov⟩
        rcases List.mem_cons.1 ha with h1 | h1
        · exact absurd (h1 ▸ hov) h
        · exact ⟨a, h1, hov⟩

/-- Unfolding of the `move_enemies` loop into move/filter/score/popup form. -/
theorem moveEnemiesAux_spec (speed h : ℚ) (l : List Box) :
    moveEnemiesAux speed h l =
      ((l.map fun b => { b with y1 := b.y1 + speed, y2 := b.y2 + speed }).filter
         (fun b => decide (b.y2 ≤ h)),
       10 * (((l.map fun b => { b with y1 := b.y1 + speed, y2 := b.y2 + speed }).filter
         (fun b => decide (h < b.y2))).length : ℚ),
       ((l.map fun b => { b with y1 := b.y1 + speed, y2 := b.y2 + speed }).filter
         (fun b => decide (h < b.y2))).map
         (fun b => Popup.mk (pyFloorDiv (b.x1 + b.x2) 2) (b.y2 - 15) 30)) := by
  induction l with
  | nil => simp [moveEnemiesAux]
  | cons b rest ih =>
    simp only [moveEnemiesAux, ih, List.map_cons]
    by_cases hb : b.y2 + speed > h
    · rw [if_pos hb]
      rw [List.filter_cons_of_neg (by simpa using hb), List.filter_cons_of_pos (by simpa using hb)]
      simp only [List.length_cons, List.map_cons]
      refine Prod.ext rfl (Prod.ext ?_ rfl)
      push_cast
      ring
    · rw [if_neg hb]
      rw [List.filter_cons_of_pos (by simpa using not_lt.1 hb),
        List.filter_cons_of_neg (by simpa using hb)]

/-- The popup loop keeps exactly the entries whose countdown was positive,
moving each up one unit and decrementing its countdown. -/
theorem popupStep_eq_filterMap (l : List Popup) :
    popupStep l = l.filterMap fun p =>
      if p.countdown ≤ 0 then none
      else some { p with y := p.y - 1, countdown := p.countdown - 1 } := by
  induction l with
  | nil => rfl
  | cons p rest ih =>
    by_cases hp : p.countdown ≤ 0 <;>
      simp [popupStep, hp, ih, List.filterMap_cons]

/-- Iterating the popup loop on a single fresh popup: alive for exactly the
first `c` updates. -/
theorem popupStep_iterate_singleton (n : ℕ) : ∀ (x y : ℚ) (c : ℤ), 0 ≤ c →
    popupStep^[n] [Popup.mk x y c] =
      if (n : ℤ) ≤ c then [Popup.mk x (y - n) (c - n)] else [] := by
  induction n with
  | zero =>
    intro x y c hc
    simp [hc]
  | succ n ih =>
    intro x y c hc
    rw [Function.iterate_succ_apply]
    by_cases h0 : c ≤ 0
    · have hc0 : c = 0 := le_antisymm h0 hc
      subst hc0
      have hstep : popupStep [Popup.mk x y 0] = [] := by simp [popupStep]
      rw [hstep, Function.iterate_fixed rfl n, if_neg (by push_cast ; omega)]
    · have hstep : popupStep [Popup.mk x y c] = [Popup.mk x (y - 1) (c - 1)] := by
        simp [popupStep, h0]
      rw [hstep, ih x (y - 1) (c - 1) (by omega)]
      by_cases hn : ((n : ℤ) + 1) ≤ c
      · rw [if_pos (by omega), if_pos (by push_cast ; omega)]
        push_cast
        norm_num
        constructor
        · ring
        · omega
      · rw [if_neg (by omega), if_neg (by push_cast ; omega)]

/-- The position invariant of §8 of the specification, with the bounds the
code computes (`size // 2` and `width - size // 2`). -/
def playerInvariant (s : GameState) : Prop :=
  pyFloorDiv s.current_player_size 2 ≤ s.player_x ∧
  s.player_x ≤ s.canvas_width - pyFloorDiv s.current_player_size 2

end SpaceWaves

namespace SpaceWaves

/-! ## Claims -/

/-- C1, counterexample.  The state reached by starting the session, pressing
space, running one tick at `now = 2000` ms (which spawns a wave of two
blocks), resizing the window to height `0`, and running one more tick (which
retires both blocks for `+20` points) is a reachable state in which
`score = 20` strictly exceeds `high_score = 0`: the claimed invariant
`high_score >= score` does not hold at every reachable state. -/
theorem C1_counterexample :
    Reachable (game_loop (on_resize (game_loop (toggle_pause
        (init_game_objects initialBase 600 700 0)) 2000 [0, 1]) 600 0) 2000 [0, 1]) ∧
    (game_loop (on_resize (game_loop (toggle_pause
        (init_game_objects initialBase 600 700 0)) 2000 [0, 1]) 600 0) 2000 [0, 1]).high_score <
      (game_loop (on_resize (game_loop (toggle_pause
        (init_game_objects initialBase 600 700 0)) 2000 [0, 1]) 600 0) 2000 [0, 1]).score := by
  constructor
  · exact Reachable.step
      (Reachable.step
        (Reachable.step
          (Reachable.step (Reachable.init 600 700 0) (Step.toggle _))
          (Step.tick _ 2000 [0, 1] (by decide) (by decide) (by decide) (by decide)))
        (Step.resize _ 600 0))
      (Step.tick _ 2000 [0, 1] (by decide) (by decide) (by decide) (by decide))
  · norm_num [game_loop, on_resize, toggle_pause, init_game_objects, reposition_player,
      move_player, spawn_enemies, move_enemies, moveEnemiesAux, update_score_popups,
      popupStep, check_collisions_core, checkCollisionsState, playerBbox, game_over,
      spawnInterval, pyFloorDiv, pyInt, ratFloor_eq_floor, initialBase]

/-- C1, amended.  `high_score >= score` holds right after the game-over
transition (where `high_score` becomes `max`), and `reset_game` leaves
`high_score` exactly as it was; during play, however, `score` may exceed
`high_score` (see the counterexample). -/
theorem C1_amended (s : GameState) (now : ℚ) :
    (game_over s).score ≤ (game_over s).high_score ∧
    (reset_game s now).high_score = s.high_score := by
  constructor
  · by_cases h : s.score > s.high_score
    · simp [game_over, h]
    · simp only [game_over]
      rw [if_neg h]
      exact le_of_not_lt h
  · rfl

/-- C2.  `check_collisions` signals a collision iff some live obstacle box
strictly overlaps the player box on both axes; a box at the head that
overlaps stops the scan regardless of the rest of the list; and a box that
merely shares an edge coordinate never triggers a collision. -/
theorem C2_check_collisions (p : Box) (es : List Box) :
    (check_collisions_core p es = true ↔
      ∃ e ∈ es, max p.x1 e.x1 < min p.x2 e.x2 ∧ max p.y1 e.y1 < min p.y2 e.y2) ∧
    (∀ (e : Box) (rest : List Box),
      max p.x1 e.x1 < min p.x2 e.x2 → max p.y1 e.y1 < min p.y2 e.y2 →
      check_collisions_core p (e :: rest) = true) ∧
    (∀ e : Box, max p.x1 e.x1 = min p.x2 e.x2 ∨ max p.y1 e.y1 = min p.y2 e.y2 →
      check_collisions_core p [e] = false) := by
  refine ⟨check_core_iff p es, fun e rest hx hy => ?_, fun e he => ?_⟩
  · simp only [check_collisions_core]
    rw [if_pos (by simp only [Bool.and_eq_true, decide_eq_true_eq] ; exact ⟨hx, hy⟩)]
  · simp only [check_collisions_core]
    have hne : ¬((decide (max p.x1 e.x1 < min p.x2 e.x2) &&
        decide (max p.y1 e.y1 < min p.y2 e.y2)) = true) := by
      simp only [Bool.and_eq_true, decide_eq_true_eq]
      rintro ⟨h1, h2⟩
      rcases he with he | he
      · rw [he] at h1
        exact lt_irrefl _ h1
      · rw [he] at h2
        exact lt_irrefl _ h2
    rw [if_neg hne]

/-- C2, witness: Scenario E of the specification. -/
theorem C2_witness :
    check_collisions_core (Box.mk 290 670 310 700) [Box.mk 300 680 360 710] = true ∧
    check_collisions_core (Box.mk 290 670 310 700) [Box.mk 310 680 360 710] = false := by
  constructor
  · exact (C2_check_collisions (Box.mk 290 670 310 700) []).2.1 (Box.mk 300 680 360 710) []
      (by norm_num [max_def, min_def]) (by norm_num [max_def, min_def])
  · exact (C2_check_collisions (Box.mk 290 670 310 700) []).2.2 (Box.mk 310 680 360 710)
      (Or.inl (by norm_num [max_def, min_def]))

/-- C3.  A `move_enemies` step keeps exactly the moved obstacles whose
bottom edge is at most the field height (strictly-greater retires, equality
does not), adds `10` points per retired obstacle, and appends exactly one
popup per retired obstacle anchored at its horizontal midpoint, `15` units
above its bottom edge. -/
theorem C3_move_enemies (s : GameState) :
    (move_enemies s).enemies =
      (s.enemies.map fun b =>
        { b with y1 := b.y1 + s.enemy_speed, y2 := b.y2 + s.enemy_speed }).filter
        (fun b => decide (b.y2 ≤ s.canvas_height)) ∧
    (move_enemies s).score = s.score +
      10 * ((((s.enemies.map fun b =>
        { b with y1 := b.y1 + s.enemy_speed, y2 := b.y2 + s.enemy_speed }).filter
        (fun b => decide (s.canvas_height < b.y2))).length : ℚ)) ∧
    (move_enemies s).score_popups = s.score_popups ++
      ((s.enemies.map fun b =>
        { b with y1 := b.y1 + s.enemy_speed, y2 := b.y2 + s.enemy_speed }).filter
        (fun b => decide (s.canvas_height < b.y2))).map
        (fun b => Popup.mk (pyFloorDiv (b.x1 + b.x2) 2) (b.y2 - 15) 30) := by
  refine ⟨?_, ?_, ?_⟩ <;> simp [move_enemies, moveEnemiesAux_spec]

/-- C4.  The advance step of the player: strictly inside the bounds the
candidate is committed and the velocity kept; a candidate at or below the
lower bound clamps to `size // 2 + 1`; a candidate at or above the upper
bound clamps to `width - size // 2 - 1`; both clamps zero the velocity. -/
theorem C4_move_player (s : GameState) (hv : s.player_vel_x ≠ 0) :
    ((pyFloorDiv s.current_player_size 2 < s.player_x + s.player_vel_x ∧
      s.player_x + s.player_vel_x < s.canvas_width - pyFloorDiv s.current_player_size 2) →
        move_player s = { s with player_x := s.player_x + s.player_vel_x }) ∧
    (s.player_x + s.player_vel_x ≤ pyFloorDiv s.current_player_size 2 →
        move_player s = { s with player_x := pyFloorDiv s.current_player_size 2 + 1,
                                 player_vel_x := 0 }) ∧
    ((pyFloorDiv s.current_player_size 2 < s.player_x + s.player_vel_x ∧
      s.canvas_width - pyFloorDiv s.current_player_size 2 ≤ s.player_x + s.player_vel_x) →
        move_player s = { s with
          player_x := s.canvas_width - pyFloorDiv s.current_player_size 2 - 1,
          player_vel_x := 0 }) :=
  move_player_cases s hv

/-- C4, witness: Scenario B — width `600`, size `30`, player at `595`
moving right at `15` ends at `584` with velocity `0`. -/
theorem C4_witness :
    (move_player
      ({ canvas_width := 600, canvas_height := 700, scale_factor := 1,
         current_player_size := 30, high_score := 0, game_paused := false,
         game_running := true, score := 0, enemies := [], enemy_speed := 3,
         last_spawn_time := 0, score_popups := [], player_x := 595, player_y := 650,
         player_vel_x := 15, return_bound := false } : GameState)).player_x = 584 ∧
    (move_player
      ({ canvas_width := 600, canvas_height := 700, scale_factor := 1,
         current_player_size := 30, high_score := 0, game_paused := false,
         game_running := true, score := 0, enemies := [], enemy_speed := 3,
         last_spawn_time := 0, score_popups := [], player_x := 595, player_y := 650,
         player_vel_x := 15, return_bound := false } : GameState)).player_vel_x = 0 := by
  have h := (C4_move_player
      ({ canvas_width := 600, canvas_height := 700, scale_factor := 1,
         current_player_size := 30, high_score := 0, game_paused := false,
         game_running := true, score := 0, enemies := [], enemy_speed := 3,
         last_spawn_time := 0, score_popups := [], player_x := 595, player_y := 650,
         player_vel_x := 15, return_bound := false } : GameState)
    (by norm_num)).2.2
    ⟨by norm_num [pyFloorDiv, ratFloor_eq_floor], by norm_num [pyFloorDiv, ratFloor_eq_floor]⟩
  rw [h]
  constructor
  · norm_num [pyFloorDiv, ratFloor_eq_floor]
  · rfl

end SpaceWaves

namespace SpaceWaves

/-- C5, counterexample.  With positive field dimensions (width `30`,
height `700`, so player size `30`) the invariant
`size // 2 <= player_x <= width - size // 2` holds before the advance
(`player_x = 15` is the only admissible position) but is violated after it:
the candidate `30` meets the upper bound and is clamped to `max_x - 1 = 14`,
which lies below the lower bound `15`. -/
theorem C5_counterexample :
    (0 : ℚ) <
      ({ canvas_width := 30, canvas_height := 700, scale_factor := 1,
         current_player_size := 30, high_score := 0, game_paused := false,
         game_running := true, score := 0, enemies := [], enemy_speed := 3,
         last_spawn_time := 0, score_popups := [], player_x := 15, player_y := 650,
         player_vel_x := 15, return_bound := false } : GameState).canvas_width ∧
    (0 : ℚ) <
      ({ canvas_width := 30, canvas_height := 700, scale_factor := 1,
         current_player_size := 30, high_score := 0, game_paused := false,
         game_running := true, score := 0, enemies := [], enemy_speed := 3,
         last_spawn_time := 0, score_popups := [], player_x := 15, player_y := 650,
         player_vel_x := 15, return_bound := false } : GameState).canvas_height ∧
    playerInvariant
      ({ canvas_width := 30, canvas_height := 700, scale_factor := 1,
         current_player_size := 30, high_score := 0, game_paused := false,
         game_running := true, score := 0, enemies := [], enemy_speed := 3,
         last_spawn_time := 0, score_popups := [], player_x := 15, player_y := 650,
         player_vel_x := 15, return_bound := false } : GameState) ∧
    ¬ playerInvariant (move_player
      ({ canvas_width := 30, canvas_height := 700, scale_factor := 1,
         current_player_size := 30, high_score := 0, game_paused := false,
         game_running := true, score := 0, enemies := [], enemy_speed := 3,
         last_spawn_time := 0, score_popups := [], player_x := 15, player_y := 650,
         player_vel_x := 15, return_bound := false } : GameState)) := by
  refine ⟨by norm_num, by norm_num, ?_, ?_⟩
  · constructor <;> norm_num [playerInvariant, pyFloorDiv, ratFloor_eq_floor]
  · norm_num [playerInvariant, move_player, pyFloorDiv, ratFloor_eq_floor]

/-- C5, amended.  The advance step preserves the invariant provided the
clamp targets fit, i.e. `size // 2 + 1 <= width - size // 2`; the resize
reposition establishes the invariant outright (no precondition on the old
position) provided `2 * (new_size // 2) <= width`, where `new_size` is the
size recomputed from the new height. -/
theorem C5_amended (s : GameState) :
    (playerInvariant s →
      pyFloorDiv s.current_player_size 2 + 1 ≤
        s.canvas_width - pyFloorDiv s.current_player_size 2 →
      playerInvariant (move_player s)) ∧
    (∀ w h : ℚ, 2 * pyFloorDiv (pyInt (30 * (h / 700))) 2 ≤ w →
      playerInvariant (on_resize s w h)) := by
  constructor
  · intro hinv hroom
    by_cases hv : s.player_vel_x ≠ 0
    · by_cases hlo : s.player_x + s.player_vel_x ≤ pyFloorDiv s.current_player_size 2
      · rw [(move_player_cases s hv).2.1 hlo]
        refine ⟨?_, ?_⟩ <;> simp only [playerInvariant] <;> linarith
      · push_neg at hlo
        by_cases hhi : s.player_x + s.player_vel_x <
            s.canvas_width - pyFloorDiv s.current_player_size 2
        · rw [(move_player_cases s hv).1 ⟨hlo, hhi⟩]
          exact ⟨le_of_lt hlo, le_of_lt hhi⟩
        · push_neg at hhi
          rw [(move_player_cases s hv).2.2 ⟨hlo, hhi⟩]
          refine ⟨?_, ?_⟩ <;> simp only [playerInvariant] <;> linarith
    · push_neg at hv
      have hmp : move_player s = s := by
        simp [move_player, hv]
      rw [hmp]
      exact hinv
  · intro w h hroom
    simp only [on_resize, reposition_player, playerInvariant]
    by_cases hgt : s.player_x > w - pyFloorDiv (pyInt (30 * (h / 700))) 2
    · rw [if_pos hgt]
      by_cases hlt : w - pyFloorDiv (pyInt (30 * (h / 700))) 2 <
          pyFloorDiv (pyInt (30 * (h / 700))) 2
      · rw [if_pos hlt]
        exact ⟨le_refl _, by linarith⟩
      · rw [if_neg hlt]
        exact ⟨not_lt.1 hlt, le_refl _⟩
    · rw [if_neg hgt]
      by_cases hlt : s.player_x < pyFloorDiv (pyInt (30 * (h / 700))) 2
      · rw [if_pos hlt]
        exact ⟨le_refl _, by linarith⟩
      · rw [if_neg hlt]
        exact ⟨not_lt.1 hlt, not_lt.1 hgt⟩

/-- C5, witness: both amended parts applied at a `600 × 700` field with
size `30`, player at `300` moving right. -/
theorem C5_witness :
    playerInvariant (move_player
      ({ canvas_width := 600, canvas_height := 700, scale_factor := 1,
         current_player_size := 30, high_score := 0, game_paused := false,
         game_running := true, score := 0, enemies := [], enemy_speed := 3,
         last_spawn_time := 0, score_popups := [], player_x := 300, player_y := 650,
         player_vel_x := 15, return_bound := false } : GameState)) ∧
    playerInvariant (on_resize
      ({ canvas_width := 600, canvas_height := 700, scale_factor := 1,
         current_player_size := 30, high_score := 0, game_paused := false,
         game_running := true, score := 0, enemies := [], enemy_speed := 3,
         last_spawn_time := 0, score_popups := [], player_x := 300, player_y := 650,
         player_vel_x := 15, return_bound := false } : GameState) 600 700) := by
  constructor
  · exact (C5_amended _).1
      (by constructor <;> norm_num [playerInvariant, pyFloorDiv, ratFloor_eq_floor])
      (by norm_num [pyFloorDiv, ratFloor_eq_floor])
  · exact (C5_amended _).2 600 700
      (by norm_num [pyFloorDiv, pyInt, ratFloor_eq_floor])

end SpaceWaves

namespace SpaceWaves

/-- C6.  Each spawner run recomputes `enemy_speed = 3 + score // 100`; a
wave is emitted exactly when `now - last_spawn_time` strictly exceeds
`1500 / (1 + score / 500)`; the emitted wave appends one obstacle per
chosen slot — spanning `[slot * (width // 10), (slot + 1) * (width // 10)]`
in x and `[0, enemy_height]` in y — and sets `last_spawn_time := now`;
otherwise the obstacle list and `last_spawn_time` are untouched.  The
hypotheses record the ranges of the random draws: `2`–`5` distinct slot
indices out of `0..9`. -/
theorem C6_spawn_enemies (s : GameState) (now : ℚ) (slots : List ℤ)
    (h2 : 2 ≤ slots.length) (h5 : slots.length ≤ 5) (hnd : slots.Nodup)
    (hmem : ∀ i ∈ slots, 0 ≤ i ∧ i < 10) :
    (spawn_enemies s now slots).enemy_speed = 3 + pyFloorDiv s.score 100 ∧
    (now - s.last_spawn_time > spawnInterval s.score →
      (spawn_enemies s now slots).enemies =
        s.enemies ++ slots.map (fun (slot : ℤ) =>
          Box.mk ((slot : ℚ) * pyFloorDiv s.canvas_width 10) 0
            (((slot : ℚ) + 1) * pyFloorDiv s.canvas_width 10)
            (pyInt (30 * s.scale_factor))) ∧
      (spawn_enemies s now slots).last_spawn_time = now ∧
      (spawn_enemies s now slots).enemies.length = s.enemies.length + slots.length) ∧
    (¬(now - s.last_spawn_time > spawnInterval s.score) →
      (spawn_enemies s now slots).enemies = s.enemies ∧
      (spawn_enemies s now slots).last_spawn_time = s.last_spawn_time) := by
  refine ⟨?_, fun hc => ?_, fun hc => ?_⟩
  · simp only [spawn_enemies]
    split <;> rfl
  · simp only [spawn_enemies]
    rw [if_pos hc]
    exact ⟨rfl, rfl, by rw [List.length_append, List.length_map]⟩
  · simp only [spawn_enemies]
    rw [if_neg hc]
    exact ⟨rfl, rfl⟩

/-- C6, witness: in the freshly initialised session (score `0`, last spawn
at `0`) a tick at `now = 2000` ms exceeds the `1500` ms threshold, emits a
two-block wave and records the spawn time. -/
theorem C6_witness :
    (spawn_enemies (init_game_objects initialBase 600 700 0) 2000 [0, 1]).last_spawn_time
      = 2000 ∧
    (spawn_enemies (init_game_objects initialBase 600 700 0) 2000 [0, 1]).enemies.length
      = 2 ∧
    (spawn_enemies (init_game_objects initialBase 600 700 0) 2000 [0, 1]).enemy_speed
      = 3 := by
  have h := C6_spawn_enemies (init_game_objects initialBase 600 700 0) 2000 [0, 1]
    (by decide) (by decide) (by decide) (by decide)
  have hc : (2000 : ℚ) - (init_game_objects initialBase 600 700 0).last_spawn_time >
      spawnInterval (init_game_objects initialBase 600 700 0).score := by
    norm_num [init_game_objects, initialBase, spawnInterval]
  refine ⟨(h.2.1 hc).2.1, ?_, ?_⟩
  · rw [(h.2.1 hc).2.2]
    norm_num [init_game_objects, initialBase]
  · rw [h.1]
    norm_num [init_game_objects, initialBase, pyFloorDiv, ratFloor_eq_floor]

/-- C7.  A popup update keeps exactly the popups whose countdown was
positive, moving each up one unit and decrementing its countdown by one; it
changes no other state component (in particular not the score and not the
collision outcome); and a popup created with countdown `30` is present
after exactly the first `30` updates and gone from the `31`st on. -/
theorem C7_update_score_popups (s : GameState) :
    (update_score_popups s).score_popups =
      s.score_popups.filterMap (fun p =>
        if p.countdown ≤ 0 then none
        else some { p with y := p.y - 1, countdown := p.countdown - 1 }) ∧
    (update_score_popups s).score = s.score ∧
    (update_score_popups s).enemies = s.enemies ∧
    (update_score_popups s).player_x = s.player_x ∧
    (update_score_popups s).player_y = s.player_y ∧
    (update_score_popups s).current_player_size = s.current_player_size ∧
    (update_score_popups s).high_score = s.high_score ∧
    (update_score_popups s).game_running = s.game_running ∧
    checkCollisionsState (update_score_popups s) = checkCollisionsState s ∧
    (∀ (x y : ℚ) (n : ℕ), popupStep^[n] [Popup.mk x y 30] =
      if (n : ℤ) ≤ 30 then [Popup.mk x (y - n) (30 - n)] else []) := by
  refine ⟨popupStep_eq_filterMap s.score_popups, rfl, rfl, rfl, rfl, rfl, rfl, rfl, rfl, ?_⟩
  intro x y n
  exact popupStep_iterate_singleton n x y 30 (by norm_num)

end SpaceWaves

namespace SpaceWaves

/-- C8, counterexample.  `reset_game` carries no state guard: invoked on a
running (not game-over) session with `score = 10` it re-initializes the
session, so the state is changed (`score` drops to `0`), contradicting
"reset while not in GameOver leaves the entire session state unchanged". -/
theorem C8_counterexample :
    (({ canvas_width := 600, canvas_height := 700, scale_factor := 1,
        current_player_size := 30, high_score := 0, game_paused := false,
        game_running := true, score := 10, enemies := [], enemy_speed := 3,
        last_spawn_time := 0, score_popups := [], player_x := 300, player_y := 650,
        player_vel_x := 0, return_bound := false } : GameState).game_running = true) ∧
    (reset_game
      ({ canvas_width := 600, canvas_height := 700, scale_factor := 1,
         current_player_size := 30, high_score := 0, game_paused := false,
         game_running := true, score := 10, enemies := [], enemy_speed := 3,
         last_spawn_time := 0, score_popups := [], player_x := 300, player_y := 650,
         player_vel_x := 0, return_bound := false } : GameState) 0).score ≠
    ({ canvas_width := 600, canvas_height := 700, scale_factor := 1,
       current_player_size := 30, high_score := 0, game_paused := false,
       game_running := true, score := 10, enemies := [], enemy_speed := 3,
       last_spawn_time := 0, score_popups := [], player_x := 300, player_y := 650,
       player_vel_x := 0, return_bound := false } : GameState).score := by
  constructor
  · rfl
  · simp only [reset_game, init_game_objects]
    norm_num

/-- C8, amended.  `toggle_pause` during GameOver is a no-op, as claimed;
the reset intent is a no-op outside GameOver only at the input-binding
level: in every reachable state that is not game-over, the `<Return>` key
is unbound (`game_over` is the sole place that binds it), so pressing it
leaves the state unchanged — `reset_game` itself is unguarded. -/
theorem C8_amended (s : GameState) :
    (s.game_running = false → toggle_pause s = s) ∧
    (∀ now : ℚ, Reachable s → s.game_running = true → press_return s now = s) := by
  constructor
  · intro h
    simp [toggle_pause, h]
  · intro now hr hrun
    have hrb : s.return_bound = false := by
      by_contra hc
      have hgo := reachable_rb hr (by revert hc ; cases s.return_bound <;> simp)
      rw [hgo] at hrun
      cases hrun
    simp [press_return, hrb]

/-- C8, witness: the toggle no-op on a concrete game-over state, and the
`<Return>` no-op on the freshly initialised (running, unbound) session. -/
theorem C8_witness :
    toggle_pause
      ({ canvas_width := 600, canvas_height := 700, scale_factor := 1,
         current_player_size := 30, high_score := 0, game_paused := false,
         game_running := false, score := 10, enemies := [], enemy_speed := 3,
         last_spawn_time := 0, score_popups := [], player_x := 300, player_y := 650,
         player_vel_x := 0, return_bound := true } : GameState) =
      ({ canvas_width := 600, canvas_height := 700, scale_factor := 1,
         current_player_size := 30, high_score := 0, game_paused := false,
         game_running := false, score := 10, enemies := [], enemy_speed := 3,
         last_spawn_time := 0, score_popups := [], player_x := 300, player_y := 650,
         player_vel_x := 0, return_bound := true } : GameState) ∧
    press_return (init_game_objects initialBase 600 700 0) 5 =
      init_game_objects initialBase 600 700 0 := by
  constructor
  · exact (C8_amended _).1 rfl
  · exact (C8_amended _).2 5 (Reachable.init 600 700 0) rfl

/-- C9, counterexample.  A reported height of `0` is passed through both by
initialisation and by resize: no minimum default is substituted (the
initialisation guard only catches the not-yet-drawn sentinel height of
exactly `1`), contradicting "substitutes a minimum default … for every
operation". -/
theorem C9_counterexample :
    (init_game_objects initialBase 600 0 0).canvas_height = 0 ∧
    (init_game_objects initialBase 600 0 0).scale_factor = 0 ∧
    (on_resize (init_game_objects initialBase 600 700 0) 600 0).canvas_height = 0 := by
  refine ⟨?_, ?_, ?_⟩
  · norm_num [init_game_objects]
  · norm_num [init_game_objects]
  · norm_num [on_resize, reposition_player, init_game_objects]

/-- C9, amended.  No division in the core takes a field dimension as
divisor, and the only non-constant divisor, `1 + score / 500` in the spawn
threshold, is positive whenever the score is non-negative — so degenerate
field dimensions can never cause a division by zero; but the minimum
default (`700`) is substituted only when initialisation reads back a height
of exactly `1`, while any other height — including `0` — is stored
unchanged by both initialisation and resize. -/
theorem C9_amended (s : GameState) (w h now score : ℚ) :
    (0 ≤ score → 0 < 1 + score / 500 ∧ 0 < spawnInterval score) ∧
    (init_game_objects s w 1 now).canvas_height = 700 ∧
    (h ≠ 1 → (init_game_objects s w h now).canvas_height = h) ∧
    (on_resize s w h).canvas_height = h := by
  refine ⟨fun hs => ?_, ?_, fun hh => ?_, ?_⟩
  · have h1 : 0 < 1 + score / 500 := by
      have := div_nonneg hs (by norm_num : (0 : ℚ) ≤ 500)
      linarith
    exact ⟨h1, by rw [spawnInterval] ; exact div_pos (by norm_num) h1⟩
  · simp [init_game_objects]
  · simp [init_game_objects, hh]
  · rfl

/-- C9, witness: the amended theorem applied at score `0` and at the
degenerate height `5`. -/
theorem C9_witness :
    (0 < 1 + (0 : ℚ) / 500 ∧ 0 < spawnInterval 0) ∧
    (init_game_objects initialBase 600 5 3).canvas_height = 5 := by
  exact ⟨(C9_amended initialBase 600 5 3 0).1 (le_refl 0),
    (C9_amended initialBase 600 5 3 0).2.2.1 (by norm_num)⟩

end SpaceWaves

namespace SpaceWaves

/-- C10.  `high_score` is written by exactly one operation: the game-over
transition, where it becomes `max high_score score`; every other operation
— a full collision-free tick, each pipeline stage (move, spawn, retire,
popups), toggle, resize, initialisation/reset, and the key handlers —
leaves it unchanged. -/
theorem C10_high_score_frame (s : GameState) (now w h v : ℚ) (slots : List ℤ)
    (k : MoveKey) :
    (checkCollisionsState (update_score_popups (move_enemies
        (spawn_enemies (move_player s) now slots))) = false →
      (game_loop s now slots).high_score = s.high_score) ∧
    (game_over s).high_score = max s.high_score s.score ∧
    (move_player s).high_score = s.high_score ∧
    (spawn_enemies s now slots).high_score = s.high_score ∧
    (move_enemies s).high_score = s.high_score ∧
    (update_score_popups s).high_score = s.high_score ∧
    (toggle_pause s).high_score = s.high_score ∧
    (on_resize s w h).high_score = s.high_score ∧
    (reposition_player s).high_score = s.high_score ∧
    (init_game_objects s w h now).high_score = s.high_score ∧
    (reset_game s now).high_score = s.high_score ∧
    (set_player_velocity s v).high_score = s.high_score ∧
    (stop_player_velocity s k).high_score = s.high_score := by
  refine ⟨fun hnc => ?_, ?_, move_player_high_score s, spawn_enemies_high_score s now slots,
    rfl, rfl, toggle_pause_high_score s, rfl, rfl, rfl, rfl, rfl,
    stop_player_velocity_high_score s k⟩
  · simp only [game_loop]
    split
    · rfl
    · rw [if_neg (by simp [hnc])]
      rw [update_score_popups_high_score, move_enemies_high_score,
        spawn_enemies_high_score, move_player_high_score]
  · by_cases hgt : s.score > s.high_score
    · simp only [game_over]
      rw [if_pos hgt, max_eq_right (le_of_lt hgt)]
    · simp only [game_over]
      rw [if_neg hgt, max_eq_left (le_of_not_lt hgt)]

/-- C10, witness: one unpaused collision-free tick of the fresh session
preserves the high score. -/
theorem C10_witness :
    (game_loop (toggle_pause (init_game_objects initialBase 600 700 0)) 0 []).high_score =
      (toggle_pause (init_game_objects initialBase 600 700 0)).high_score := by
  apply (C10_high_score_frame (toggle_pause (init_game_objects initialBase 600 700 0))
    0 0 0 0 [] MoveKey.left).1
  norm_num [toggle_pause, init_game_objects, initialBase, move_player, spawn_enemies,
    move_enemies, moveEnemiesAux, update_score_popups, popupStep, checkCollisionsState,
    check_collisions_core, playerBbox, spawnInterval, pyFloorDiv, pyInt, ratFloor_eq_floor]

end SpaceWaves
